import Mathlib

/-!
Verification development for the roguelike parameter resolver of maa-cli
(`crates/maa-cli/src/run/preset/roguelike.rs`).

The resolver `into_parameters_no_context` consumes a fully parsed
`RoguelikeParams` record and either produces a configuration mapping
(modelled as an ordered association list from string keys to dynamically
typed values) together with the list of warnings it logged, or fails with
an error message.  The embedding below follows the Rust source block by
block: the theme/mode compatibility match, the warning checks, the base
`object!` construction, the conditional field groups, and the final
theme-specific match.
-/

namespace Roguelike

/-- The five roguelike themes, as in the Rust `Theme` enum. -/
inductive Theme where
  | Phantom
  | Mizuki
  | Sami
  | Sarkaz
  | JieGarden
deriving DecidableEq, Repr

/-- `Theme::to_str`. -/
def Theme.to_str : Theme → String
  | .Phantom => "Phantom"
  | .Mizuki => "Mizuki"
  | .Sami => "Sami"
  | .Sarkaz => "Sarkaz"
  | .JieGarden => "JieGarden"

/-- Dynamically typed values of the configuration mapping (`MAAValue`). -/
inductive MAAValue where
  | vBool : Bool → MAAValue
  | vInt : Int → MAAValue
  | vStr : String → MAAValue
  | vArr : List MAAValue → MAAValue
  | vObj : List (String × MAAValue) → MAAValue

/-- An ordered mapping from string keys to values, keys unique. -/
abbrev ConfigMap := List (String × MAAValue)

/-- Key lookup in a configuration mapping. -/
def lookupKey : ConfigMap → String → Option MAAValue
  | [], _ => none
  | (k, v) :: rest, q => if k = q then some v else lookupKey rest q

/-- `MAAValue::insert`: set `k` to `v`, replacing an existing entry for `k`
and otherwise appending at the end (map semantics of the Rust object). -/
def setKey : ConfigMap → String → MAAValue → ConfigMap
  | [], k, v => [(k, v)]
  | (k0, v0) :: rest, k, v =>
    if k0 = k then (k, v) :: rest else (k0, v0) :: setKey rest k v

/-- The `=>?` form of the `insert!` macro: insert only when the optional
value is present. -/
def insOpt (m : ConfigMap) (k : String) : Option MAAValue → ConfigMap
  | some v => setKey m k v
  | none => m

/-- The fully parsed options record (`RoguelikeParams`), field for field. -/
structure RoguelikeParams where
  theme : Theme
  mode : Int
  squad : Option String
  core_char : Option String
  roles : Option String
  start_count : Option Int
  difficulty : Option Int
  disable_investment : Bool
  investment_with_more_score : Bool
  investments_count : Option Int
  no_stop_when_investment_full : Bool
  use_support : Bool
  use_nonfriend_support : Bool
  start_with_elite_two : Bool
  only_start_with_elite_two : Bool
  stop_at_final_boss : Bool
  stop_when_deposit_full : Bool
  stop_when_level_max : Bool
  refresh_trader_with_dice : Bool
  use_foldartal : Bool
  start_foldartals : List String
  expected_collapsal_paradigms : List String
  sami_first_floor_foldartal : Bool
  sami_first_floor_foldartals : List String
  sami_new_squad2_starting_foldartal : Bool
  sami_new_squad2_starting_foldartals : List String
  start_with_seed : Bool
  seed : Option String
  find_playtime_target : Option Int
  collectible_squad : Option String
  collectible_shopping : Bool
  collectible_start_awards : Option String
  monthly_squad_auto_iterate : Bool
  monthly_squad_check_comms : Bool
  deep_exploration_auto_iterate : Bool

/-- The theme/mode compatibility match at the top of
`into_parameters_no_context` (lines 189-198 of the source). -/
def modeThemeCheck (theme : Theme) (mode : Int) : Except String Unit :=
  if mode = 5 ∧ theme ≠ Theme.Sami then
    Except.error "Mode 5 is only available in Sami theme"
  else if mode = 20001 ∧ theme ≠ Theme.JieGarden then
    Except.error "Mode 20001 is only available in JieGarden theme"
  else if (0 ≤ mode ∧ mode ≤ 7) ∨ mode = 20001 then
    Except.ok ()
  else
    Except.error "Mode must be in range between 0 and 7, or 20001"

/-- The five `log::warn!` validations that precede map construction,
in source order. -/
def topWarns (p : RoguelikeParams) : List String :=
  (if p.start_with_seed ∧ (p.theme ≠ Theme.Sarkaz ∨ p.mode ≠ 1) then
    ["start_with_seed is only meaningful for Sarkaz theme with mode 1, ignoring"]
  else []) ++
  (if p.seed.isSome ∧ ¬p.start_with_seed then
    ["seed is provided but start_with_seed is not enabled, ignoring"]
  else []) ++
  (if p.mode ≠ 4 ∧
      (p.collectible_squad.isSome ∨ p.collectible_shopping ∨
        p.collectible_start_awards.isSome) then
    ["Collectible mode parameters are only meaningful for mode 4, ignoring"]
  else []) ++
  (if p.mode ≠ 6 ∧ (p.monthly_squad_auto_iterate ∨ p.monthly_squad_check_comms) then
    ["Monthly squad parameters are only meaningful for mode 6, ignoring"]
  else []) ++
  (if p.mode ≠ 7 ∧ p.deep_exploration_auto_iterate then
    ["Deep exploration parameters are only meaningful for mode 7, ignoring"]
  else [])

/-- The initial `object!` block: theme, mode, optional pass-through scalars,
and the three stop-condition booleans. -/
def baseValue (p : RoguelikeParams) : ConfigMap :=
  let v : ConfigMap := []
  let v := setKey v "theme" (.vStr p.theme.to_str)
  let v := setKey v "mode" (.vInt p.mode)
  let v := insOpt v "squad" (p.squad.map .vStr)
  let v := insOpt v "roles" (p.roles.map .vStr)
  let v := insOpt v "core_char" (p.core_char.map .vStr)
  let v := insOpt v "start_count" (p.start_count.map .vInt)
  let v := setKey v "stop_at_final_boss" (.vBool p.stop_at_final_boss)
  let v := setKey v "stop_when_deposit_full" (.vBool p.stop_when_deposit_full)
  setKey v "stop_at_max_level" (.vBool p.stop_when_level_max)

/-- Difficulty block: skipped (warn only) for Phantom, otherwise inserted
when present. -/
def withDifficulty (p : RoguelikeParams) (v : ConfigMap) : ConfigMap :=
  if p.theme = Theme.Phantom then v
  else insOpt v "difficulty" (p.difficulty.map .vInt)

/-- The warning emitted by the difficulty block for the Phantom theme. -/
def difficultyWarn (p : RoguelikeParams) : List String :=
  if p.theme = Theme.Phantom ∧ p.difficulty.isSome then
    ["Difficulty is not valid for Phantom theme, ignored"]
  else []

/-- Investment group: either the single disabled flag, or the enabled
flag, the optional count, the more-score flag and the negated stop flag. -/
def withInvestment (p : RoguelikeParams) (v : ConfigMap) : ConfigMap :=
  if p.disable_investment then
    setKey v "investment_enabled" (.vBool false)
  else
    let v := setKey v "investment_enabled" (.vBool true)
    let v := insOpt v "investments_count" (p.investments_count.map .vInt)
    let v := setKey v "investment_with_more_score" (.vBool p.investment_with_more_score)
    setKey v "stop_when_investment_full" (.vBool (!p.no_stop_when_investment_full))

/-- Support-unit block: two booleans, always emitted. -/
def withSupport (p : RoguelikeParams) (v : ConfigMap) : ConfigMap :=
  setKey (setKey v "use_support" (.vBool p.use_support))
    "use_nonfriend_support" (.vBool p.use_nonfriend_support)

/-- Elite block: both keys only when the primary flag is set. -/
def withElite (p : RoguelikeParams) (v : ConfigMap) : ConfigMap :=
  if p.start_with_elite_two then
    setKey (setKey v "start_with_elite_two" (.vBool true))
      "only_start_with_elite_two" (.vBool p.only_start_with_elite_two)
  else v

/-- Rust `str::split(',')` on the character list of a string: splits at every
comma, keeping empty pieces (so `"a,,b"` yields `["a", "", "b"]` and `""`
yields `[""]`). -/
def splitOnChar (c : Char) : List Char → List (List Char)
  | [] => [[]]
  | a :: rest =>
    let r := splitOnChar c rest
    if a = c then [] :: r
    else
      match r with
      | h :: t => (a :: h) :: t
      | [] => [[a]]

/-- Rust `str::split(',')` producing strings. -/
def splitCommas (s : String) : List String :=
  (splitOnChar ',' s.data).map (fun l => String.mk l)

/-- Rust `str::trim`: drop whitespace from both ends (whitespace as in
`Char.isWhitespace`: space, tab, carriage return, newline). -/
def trimChars (l : List Char) : List Char :=
  ((l.dropWhile Char.isWhitespace).reverse.dropWhile Char.isWhitespace).reverse

/-- Rust `str::trim` on strings. -/
def trimStr (s : String) : String :=
  String.mk (trimChars s.data)

/-- The fixed award lookup table (`reward_map`). -/
def rewardMap : List (String × String) :=
  [("hot_water", "hot_water"), ("shield", "shield"), ("ingot", "ingot"),
   ("hope", "hope"), ("random", "random"), ("key", "key"), ("dice", "dice"),
   ("idea", "ideas"), ("ticket", "ticket")]

/-- The `for award in awards.split(',')` loop: accumulates the award object,
the valid-token count and the warnings, in source order. -/
def awardLoop : List String → ConfigMap → Nat → List String →
    ConfigMap × Nat × List String
  | [], acc, n, ws => (acc, n, ws)
  | a :: rest, acc, n, ws =>
    let t := trimStr a
    match rewardMap.find? (fun q => q.1 == t) with
    | some q => awardLoop rest (setKey acc q.2 (.vBool true)) (n + 1) ws
    | none =>
      if t = "" then awardLoop rest acc n ws
      else awardLoop rest acc n
        (ws ++ ["Unknown collectible start award: " ++ t ++ ", ignoring"])

/-- Collectible-mode block (mode 4): squad, shopping and the award
sub-mapping, which is inserted only when at least one token validated.
Returns the updated map and the award warnings. -/
def withCollectible (p : RoguelikeParams) (v : ConfigMap) :
    ConfigMap × List String :=
  if p.mode = 4 then
    let v := insOpt v "collectible_mode_squad" (p.collectible_squad.map .vStr)
    let v := setKey v "collectible_mode_shopping" (.vBool p.collectible_shopping)
    match p.collectible_start_awards with
    | some awards =>
      let r := awardLoop (splitCommas awards) [] 0 []
      (if r.2.1 > 0 then setKey v "collectible_mode_start_list" (.vObj r.1) else v,
        r.2.2)
    | none => (v, [])
  else (v, [])

/-- Monthly-squad block (mode 6). -/
def withMonthly (p : RoguelikeParams) (v : ConfigMap) : ConfigMap :=
  if p.mode = 6 then
    setKey (setKey v "monthly_squad_auto_iterate" (.vBool p.monthly_squad_auto_iterate))
      "monthly_squad_check_comms" (.vBool p.monthly_squad_check_comms)
  else v

/-- Deep-exploration block (mode 7). -/
def withDeep (p : RoguelikeParams) (v : ConfigMap) : ConfigMap :=
  if p.mode = 7 then
    setKey v "deep_exploration_auto_iterate" (.vBool p.deep_exploration_auto_iterate)
  else v

/-- The theme-specific match at the end of the resolver, including the
three fatal validations (Sami mode 5, Sarkaz mode 1, JieGarden mode 20001). -/
def themeApply (p : RoguelikeParams) (v : ConfigMap) : Except String ConfigMap :=
  match p.theme with
  | .Phantom => Except.ok v
  | .Mizuki =>
    Except.ok (setKey v "refresh_trader_with_dice" (.vBool p.refresh_trader_with_dice))
  | .Sami =>
    let v := setKey v "use_foldartal" (.vBool p.use_foldartal)
    let v :=
      if p.mode = 4 ∧ p.sami_first_floor_foldartal ∧
          p.sami_first_floor_foldartals ≠ [] then
        setKey v "first_floor_foldartal"
          (.vArr (p.sami_first_floor_foldartals.map .vStr))
      else v
    let v :=
      if p.sami_new_squad2_starting_foldartal ∧
          p.sami_new_squad2_starting_foldartals ≠ [] then
        setKey v "start_foldartal_list"
          (.vArr (p.sami_new_squad2_starting_foldartals.map .vStr))
      else if p.start_foldartals ≠ [] then
        setKey v "start_foldartal_list" (.vArr (p.start_foldartals.map .vStr))
      else v
    if p.mode = 5 then
      if p.expected_collapsal_paradigms = [] then
        Except.error
          "At least one expected collapsal paradigm is required when mode 5 is enabled"
      else
        let v := setKey v "check_collapsal_paradigms" (.vBool true)
        let v := setKey v "double_check_collapsal_paradigms" (.vBool true)
        Except.ok (setKey v "expected_collapsal_paradigms"
          (.vArr (p.expected_collapsal_paradigms.map .vStr)))
    else Except.ok v
  | .Sarkaz =>
    if p.mode = 1 then
      if p.start_with_seed then
        match p.seed with
        | some s => Except.ok (setKey v "start_with_seed" (.vStr s))
        | none => Except.error "Seed must be provided when start_with_seed is enabled"
      else Except.ok v
    else Except.ok v
  | .JieGarden =>
    if p.mode = 20001 then
      match p.find_playtime_target with
      | some t =>
        if ¬(1 ≤ t ∧ t ≤ 3) then
          Except.error "find_playtime_target must be between 1 and 3"
        else Except.ok (setKey v "find_playTime_target" (.vInt t))
      | none =>
        Except.error "find_playtime_target is required for JieGarden theme with mode 20001"
    else Except.ok v

/-- The configuration mapping as built before the theme-specific match,
paired with the award warnings collected along the way. -/
def prethemeValue (p : RoguelikeParams) : ConfigMap × List String :=
  let v := baseValue p
  let v := withDifficulty p v
  let v := withInvestment p v
  let v := withSupport p v
  let v := withElite p v
  let r := withCollectible p v
  let v := withMonthly p r.1
  let v := withDeep p v
  (v, r.2)

/-- `RoguelikeParams::into_parameters_no_context`: the full resolver.
On success it returns the configuration mapping together with all warnings
logged, in source order. -/
def into_parameters_no_context (p : RoguelikeParams) :
    Except String (ConfigMap × List String) :=
  match modeThemeCheck p.theme p.mode with
  | Except.error e => Except.error e
  | Except.ok _ =>
    match themeApply p (prethemeValue p).1 with
    | Except.error e => Except.error e
    | Except.ok v =>
      Except.ok (v, topWarns p ++ difficultyWarn p ++ (prethemeValue p).2)

/-- Whether the theme-specific match succeeds; this is a function of the
theme, the mode and the three mandatory theme-specific inputs only. -/
def themeOkB (p : RoguelikeParams) : Bool :=
  match p.theme with
  | .Sami => decide (¬(p.mode = 5 ∧ p.expected_collapsal_paradigms = []))
  | .Sarkaz => decide (¬(p.mode = 1 ∧ p.start_with_seed ∧ p.seed = none))
  | .JieGarden =>
    if p.mode = 20001 then
      match p.find_playtime_target with
      | some t => decide (1 ≤ t ∧ t ≤ 3)
      | none => false
    else true
  | _ => true

/-- A fully defaulted options record (theme Phantom, mode 0, every flag
off, every optional input absent), used to instantiate the theorems below
at concrete inputs. -/
def sampleParams : RoguelikeParams :=
  { theme := .Phantom, mode := 0, squad := none, core_char := none, roles := none,
    start_count := none, difficulty := none, disable_investment := false,
    investment_with_more_score := false, investments_count := none,
    no_stop_when_investment_full := false, use_support := false,
    use_nonfriend_support := false, start_with_elite_two := false,
    only_start_with_elite_two := false, stop_at_final_boss := false,
    stop_when_deposit_full := false, stop_when_level_max := false,
    refresh_trader_with_dice := false, use_foldartal := false,
    start_foldartals := [], expected_collapsal_paradigms := [],
    sami_first_floor_foldartal := false, sami_first_floor_foldartals := [],
    sami_new_squad2_starting_foldartal := false,
    sami_new_squad2_starting_foldartals := [], start_with_seed := false,
    seed := none, find_playtime_target := none, collectible_squad := none,
    collectible_shopping := false, collectible_start_awards := none,
    monthly_squad_auto_iterate := true, monthly_squad_check_comms := true,
    deep_exploration_auto_iterate := true }

/-- The successful result of the resolver at a given input, defaulting to
the empty mapping on failure. -/
def resolvedAt (p : RoguelikeParams) : ConfigMap × List String :=
  (into_parameters_no_context p).toOption.getD ([], [])

/-- An options record with an out-of-range mode. -/
def paramsModeBad : RoguelikeParams := { sampleParams with mode := 8 }

/-- JieGarden in find-playtime mode with target 2. -/
def paramsJie : RoguelikeParams :=
  { sampleParams with
    theme := Theme.JieGarden, mode := 20001, find_playtime_target := some 2 }

/-- Sarkaz investment mode starting from a seed. -/
def paramsSarkazSeed : RoguelikeParams :=
  { sampleParams with
    theme := Theme.Sarkaz, mode := 1, start_with_seed := true,
    seed := some "123456" }

/-- Phantom with a (to-be-ignored) difficulty. -/
def paramsPhantomDiff : RoguelikeParams :=
  { sampleParams with difficulty := some 15 }

/-- Sami with both the squad2 starting-foldartal list and the general
starting-foldartal list non-empty. -/
def paramsSamiFoldartal : RoguelikeParams :=
  { sampleParams with
    theme := Theme.Sami, sami_new_squad2_starting_foldartal := true,
    sami_new_squad2_starting_foldartals := ["A"], start_foldartals := ["B"] }

/-- Collectible mode with one unrecognized award token. -/
def paramsAward : RoguelikeParams :=
  { sampleParams with
    theme := Theme.Sami, mode := 4,
    collectible_start_awards := some "hot_water,invalid,shield" }

/-- Phantom with the start-with-seed flag set but no seed. -/
def paramsSeedIgnored : RoguelikeParams :=
  { sampleParams with start_with_seed := true }

/-- Sami collapsal-paradigms mode with one expected paradigm. -/
def paramsSami5 : RoguelikeParams :=
  { sampleParams with
    theme := Theme.Sami, mode := 5, expected_collapsal_paradigms := ["X"] }

/-! ### Lemmas about the configuration mapping -/

@[simp]
theorem exceptOk_ok {α : Type} (a : α) : (Except.ok a : Except String α).isOk = true := rfl

@[simp]
theorem exceptOk_error {α : Type} (e : String) :
    (Except.error e : Except String α).isOk = false := rfl

theorem lookup_setKey (m : ConfigMap) (k q : String) (v : MAAValue) :
    lookupKey (setKey m k v) q = if k = q then some v else lookupKey m q := by
  induction m with
  | nil => simp [setKey, lookupKey]
  | cons a rest ih =>
    obtain ⟨k0, v0⟩ := a
    by_cases h0 : k0 = k
    · subst h0
      simp only [setKey, if_pos rfl, lookupKey]
      by_cases h1 : k0 = q <;> simp [h1]
    · simp only [setKey, if_neg h0, lookupKey, ih]
      by_cases h1 : k0 = q
      · have h2 : ¬k = q := fun h => h0 (h1.trans h.symm)
        simp [h1, h2]
      · simp [h1]

theorem lookup_insOpt (m : ConfigMap) (k q : String) (o : Option MAAValue) :
    lookupKey (insOpt m k o) q =
      if k = q ∧ o.isSome then o else lookupKey m q := by
  cases o with
  | none => simp [insOpt]
  | some v => simp [insOpt, lookup_setKey]

/-! ### Preservation lemmas: each builder stage leaves keys it does not
own untouched -/

theorem lookup_withDifficulty_ne (p : RoguelikeParams) (v : ConfigMap) (q : String)
    (h : ("difficulty" : String) ≠ q) :
    lookupKey (withDifficulty p v) q = lookupKey v q := by
  unfold withDifficulty
  split_ifs <;> simp [lookup_insOpt, h]

theorem lookup_withInvestment_ne (p : RoguelikeParams) (v : ConfigMap) (q : String)
    (h1 : ("investment_enabled" : String) ≠ q)
    (h2 : ("investments_count" : String) ≠ q)
    (h3 : ("investment_with_more_score" : String) ≠ q)
    (h4 : ("stop_when_investment_full" : String) ≠ q) :
    lookupKey (withInvestment p v) q = lookupKey v q := by
  unfold withInvestment
  split_ifs <;> simp [lookup_setKey, lookup_insOpt, h1, h2, h3, h4]

theorem lookup_withSupport_ne (p : RoguelikeParams) (v : ConfigMap) (q : String)
    (h1 : ("use_support" : String) ≠ q)
    (h2 : ("use_nonfriend_support" : String) ≠ q) :
    lookupKey (withSupport p v) q = lookupKey v q := by
  simp [withSupport, lookup_setKey, h1, h2]

theorem lookup_withElite_ne (p : RoguelikeParams) (v : ConfigMap) (q : String)
    (h1 : ("start_with_elite_two" : String) ≠ q)
    (h2 : ("only_start_with_elite_two" : String) ≠ q) :
    lookupKey (withElite p v) q = lookupKey v q := by
  unfold withElite
  split_ifs <;> simp [lookup_setKey, h1, h2]

theorem lookup_withCollectible_ne (p : RoguelikeParams) (v : ConfigMap) (q : String)
    (h1 : ("collectible_mode_squad" : String) ≠ q)
    (h2 : ("collectible_mode_shopping" : String) ≠ q)
    (h3 : ("collectible_mode_start_list" : String) ≠ q) :
    lookupKey (withCollectible p v).1 q = lookupKey v q := by
  unfold withCollectible
  split_ifs with hm
  · cases p.collectible_start_awards with
    | none => simp [lookup_setKey, lookup_insOpt, h1, h2, h3]
    | some awards =>
      simp only []
      split_ifs <;> simp [lookup_setKey, lookup_insOpt, h1, h2, h3]
  · rfl

theorem lookup_withMonthly_ne (p : RoguelikeParams) (v : ConfigMap) (q : String)
    (h1 : ("monthly_squad_auto_iterate" : String) ≠ q)
    (h2 : ("monthly_squad_check_comms" : String) ≠ q) :
    lookupKey (withMonthly p v) q = lookupKey v q := by
  unfold withMonthly
  split_ifs <;> simp [lookup_setKey, h1, h2]

theorem lookup_withDeep_ne (p : RoguelikeParams) (v : ConfigMap) (q : String)
    (h : ("deep_exploration_auto_iterate" : String) ≠ q) :
    lookupKey (withDeep p v) q = lookupKey v q := by
  unfold withDeep
  split_ifs <;> simp [lookup_setKey, h]

theorem lookup_themeApply_ne (p : RoguelikeParams) (v w : ConfigMap) (q : String)
    (hw : themeApply p v = Except.ok w)
    (h1 : ("refresh_trader_with_dice" : String) ≠ q)
    (h2 : ("use_foldartal" : String) ≠ q)
    (h3 : ("first_floor_foldartal" : String) ≠ q)
    (h4 : ("start_foldartal_list" : String) ≠ q)
    (h5 : ("check_collapsal_paradigms" : String) ≠ q)
    (h6 : ("double_check_collapsal_paradigms" : String) ≠ q)
    (h7 : ("expected_collapsal_paradigms" : String) ≠ q)
    (h8 : ("start_with_seed" : String) ≠ q)
    (h9 : ("find_playTime_target" : String) ≠ q) :
    lookupKey w q = lookupKey v q := by
  unfold themeApply at hw
  cases hth : p.theme <;> rw [hth] at hw <;> simp only [] at hw
  case Phantom => cases hw; rfl
  case Mizuki => cases hw; simp [lookup_setKey, h1]
  case Sami =>
    split at hw
    · split at hw
      · exact absurd hw (by simp)
      · cases hw
        split_ifs <;>
          simp [lookup_setKey, h2, h3, h4, h5, h6, h7]
    · cases hw
      split_ifs <;> simp [lookup_setKey, h2, h3, h4]
  case Sarkaz =>
    split at hw
    · split at hw
      · split at hw
        · cases hw; simp [lookup_setKey, h8]
        · exact absurd hw (by simp)
      · cases hw; rfl
    · cases hw; rfl
  case JieGarden =>
    split at hw
    · split at hw
      · split at hw
        · exact absurd hw (by simp)
        · cases hw; simp [lookup_setKey, h9]
      · exact absurd hw (by simp)
    · cases hw; rfl

/-! ### Structure of the resolver result -/

theorem into_ok_elim (p : RoguelikeParams) (out : ConfigMap × List String)
    (h : into_parameters_no_context p = Except.ok out) :
    (modeThemeCheck p.theme p.mode).isOk = true ∧
    themeApply p (prethemeValue p).1 = Except.ok out.1 ∧
    out.2 = topWarns p ++ difficultyWarn p ++ (prethemeValue p).2 := by
  unfold into_parameters_no_context at h
  split at h
  · exact absurd h (by simp)
  · next u heq =>
    split at h
    · exact absurd h (by simp)
    · next v heq2 =>
      cases h
      exact ⟨by simp [heq, Except.isOk], heq2, rfl⟩

theorem themeApply_isOk (p : RoguelikeParams) (v : ConfigMap) :
    (themeApply p v).isOk = themeOkB p := by
  unfold themeApply themeOkB
  cases hth : p.theme
  case Phantom => rfl
  case Mizuki => rfl
  case Sami =>
    by_cases h5 : p.mode = 5
    · by_cases he : p.expected_collapsal_paradigms = [] <;> simp [h5, he]
    · simp [h5]
  case Sarkaz =>
    by_cases h1 : p.mode = 1
    · cases hs : p.start_with_seed
      · simp [h1, hs]
      · cases hse : p.seed <;> simp [h1, hs, hse]
    · simp [h1]
  case JieGarden =>
    by_cases h1 : p.mode = 20001
    · cases ht : p.find_playtime_target
      · simp [h1, ht]
      · next t =>
        by_cases hr : 1 ≤ t ∧ t ≤ 3 <;> simp [h1, ht, hr]
    · simp [h1]

theorem into_isOk (p : RoguelikeParams) :
    (into_parameters_no_context p).isOk =
      ((modeThemeCheck p.theme p.mode).isOk && themeOkB p) := by
  unfold into_parameters_no_context
  cases hc : modeThemeCheck p.theme p.mode
  · simp
  · cases ht : themeApply p (prethemeValue p).1 <;>
      rw [← themeApply_isOk p (prethemeValue p).1, ht] <;> simp

/-- Reading the pre-theme mapping at a key owned by none of the stages
after the investment block gives the value at the investment block. -/
theorem lookup_pre_to_investment (p : RoguelikeParams) (q : String)
    (h1 : ("use_support" : String) ≠ q)
    (h2 : ("use_nonfriend_support" : String) ≠ q)
    (h3 : ("start_with_elite_two" : String) ≠ q)
    (h4 : ("only_start_with_elite_two" : String) ≠ q)
    (h5 : ("collectible_mode_squad" : String) ≠ q)
    (h6 : ("collectible_mode_shopping" : String) ≠ q)
    (h7 : ("collectible_mode_start_list" : String) ≠ q)
    (h8 : ("monthly_squad_auto_iterate" : String) ≠ q)
    (h9 : ("monthly_squad_check_comms" : String) ≠ q)
    (h10 : ("deep_exploration_auto_iterate" : String) ≠ q) :
    lookupKey (prethemeValue p).1 q =
      lookupKey (withInvestment p (withDifficulty p (baseValue p))) q := by
  show lookupKey
    (withDeep p (withMonthly p
      (withCollectible p (withElite p (withSupport p
        (withInvestment p (withDifficulty p (baseValue p)))))).1)) q = _
  rw [lookup_withDeep_ne p _ q h10, lookup_withMonthly_ne p _ q h8 h9,
    lookup_withCollectible_ne p _ q h5 h6 h7, lookup_withElite_ne p _ q h3 h4,
    lookup_withSupport_ne p _ q h1 h2]

/-- Reading the pre-theme mapping at a key owned by neither the monthly
nor the deep-exploration block gives the value at the collectible block. -/
theorem lookup_pre_to_collectible (p : RoguelikeParams) (q : String)
    (h8 : ("monthly_squad_auto_iterate" : String) ≠ q)
    (h9 : ("monthly_squad_check_comms" : String) ≠ q)
    (h10 : ("deep_exploration_auto_iterate" : String) ≠ q) :
    lookupKey (prethemeValue p).1 q =
      lookupKey (withCollectible p (withElite p (withSupport p
        (withInvestment p (withDifficulty p (baseValue p)))))).1 q := by
  show lookupKey
    (withDeep p (withMonthly p
      (withCollectible p (withElite p (withSupport p
        (withInvestment p (withDifficulty p (baseValue p)))))).1)) q = _
  rw [lookup_withDeep_ne p _ q h10, lookup_withMonthly_ne p _ q h8 h9]

/-- The pre-theme mapping never contains the seed key. -/
theorem pre_no_seed (p : RoguelikeParams) :
    lookupKey (prethemeValue p).1 "start_with_seed" = none := by
  rw [lookup_pre_to_investment p "start_with_seed" (by decide) (by decide)
      (by decide) (by decide) (by decide) (by decide) (by decide) (by decide)
      (by decide) (by decide),
    lookup_withInvestment_ne p _ _ (by decide) (by decide) (by decide) (by decide),
    lookup_withDifficulty_ne p _ _ (by decide)]
  simp [baseValue, lookup_setKey, lookup_insOpt, lookupKey]

/-- The pre-theme mapping never contains the start-foldartal-list key. -/
theorem pre_no_foldartal (p : RoguelikeParams) :
    lookupKey (prethemeValue p).1 "start_foldartal_list" = none := by
  rw [lookup_pre_to_investment p "start_foldartal_list" (by decide) (by decide)
      (by decide) (by decide) (by decide) (by decide) (by decide) (by decide)
      (by decide) (by decide),
    lookup_withInvestment_ne p _ _ (by decide) (by decide) (by decide) (by decide),
    lookup_withDifficulty_ne p _ _ (by decide)]
  simp [baseValue, lookup_setKey, lookup_insOpt, lookupKey]

/-- Whether the theme match succeeds never depends on the seed value
outside Sarkaz mode 1. -/
theorem themeOkB_seed_free (p : RoguelikeParams)
    (h : ¬p.theme = Theme.Sarkaz ∨ ¬p.mode = 1) (s : Option String) :
    themeOkB { p with seed := s } = themeOkB p := by
  obtain ⟨th, mo, sq, cc, ro, sc, di, dinv, ims, ic, nsw, us, uns, swe, oswe,
    saf, swd, swl, rtd, uf, sf, ecp, sff, sffs, snsf, snsfs, sws, sd, fpt,
    csq, csh, csa, msa, msc, dea⟩ := p
  cases th
  case Sarkaz =>
    rcases h with hA | hB
    · exact absurd rfl hA
    · simp [themeOkB, hB]
  all_goals rfl

/-- Outside Sarkaz mode 1, the theme match never writes the seed key. -/
theorem themeApply_seed_scope (p : RoguelikeParams) (v w : ConfigMap)
    (hw : themeApply p v = Except.ok w)
    (h : ¬p.theme = Theme.Sarkaz ∨ ¬p.mode = 1) :
    lookupKey w "start_with_seed" = lookupKey v "start_with_seed" := by
  unfold themeApply at hw
  cases hth : p.theme <;> rw [hth] at hw <;> simp only [] at hw
  case Phantom => cases hw; rfl
  case Mizuki => cases hw; simp [lookup_setKey]
  case Sami =>
    split at hw
    · split at hw
      · exact absurd hw (by simp)
      · cases hw
        split_ifs <;> simp [lookup_setKey]
    · cases hw
      split_ifs <;> simp [lookup_setKey]
  case Sarkaz =>
    rcases h with hA | hB
    · exact absurd hth hA
    · rw [if_neg hB] at hw
      cases hw
      rfl
  case JieGarden =>
    split at hw
    · split at hw
      · split at hw
        · exact absurd hw (by simp)
        · cases hw
          simp [lookup_setKey]
      · exact absurd hw (by simp)
    · cases hw
      rfl

/-! ### The claims -/

/-- C1: resolution fails at the theme/mode compatibility check exactly when
the mode is illegal: mode 5 requires Sami, mode 20001 requires JieGarden,
every other mode must lie in 0..=7; modes 0 through 7 pass the check for
every theme.  Whenever the check fails, the whole resolver fails. -/
theorem mode_compatibility_check :
    (∀ (t : Theme) (m : Int),
      (modeThemeCheck t m).isOk = true ↔
        ((0 ≤ m ∧ m ≤ 7 ∧ (m = 5 → t = Theme.Sami)) ∨
          (m = 20001 ∧ t = Theme.JieGarden))) ∧
    (∀ p : RoguelikeParams, (modeThemeCheck p.theme p.mode).isOk = false →
      (into_parameters_no_context p).isOk = false) := by
  constructor
  · intro t m
    unfold modeThemeCheck
    split_ifs with h1 h2 h3
    · obtain ⟨h5, hns⟩ := h1
      subst h5
      simp [hns]
    · obtain ⟨h20, hns⟩ := h2
      subst h20
      simp [hns]
    · simp only [exceptOk_ok, true_iff]
      push_neg at h1 h2
      rcases h3 with ⟨hl, hr⟩ | h20
      · exact Or.inl ⟨hl, hr, h1⟩
      · exact Or.inr ⟨h20, h2 h20⟩
    · simp only [exceptOk_error]
      constructor
      · intro hff
        simp at hff
      · rintro (⟨hl, hr, _⟩ | ⟨h20, _⟩)
        · exact ((h3 (Or.inl ⟨hl, hr⟩)).elim)
        · exact ((h3 (Or.inr h20)).elim)
  · intro p h
    rw [into_isOk, h]
    rfl

/-- Witness for C1: mode 8 makes the resolver fail. -/
theorem mode_compatibility_check_witness :
    (into_parameters_no_context paramsModeBad).isOk = false :=
  mode_compatibility_check.2 paramsModeBad (by rfl)

/-- C1 counterexample: mode 5 lies in 0..=7, yet the compatibility check
rejects it for the Phantom theme — so not every mode of 0..=7 passes for
every theme. -/
theorem mode5_in_range_yet_phantom_fails :
    ((0 : Int) ≤ 5 ∧ (5 : Int) ≤ 7) ∧
      (modeThemeCheck Theme.Phantom 5).isOk = false :=
  ⟨by decide, rfl⟩

/-- C2: with the disable-investment flag set, the output carries exactly
the disabled boolean and no other investment key, whatever the other
investment inputs were; with the flag unset it carries the enabled
boolean, the more-score boolean, the negation of the no-stop flag, and
the count exactly when one was supplied. -/
theorem investment_fields (p : RoguelikeParams) (out : ConfigMap × List String)
    (h : into_parameters_no_context p = Except.ok out) :
    (p.disable_investment = true →
      lookupKey out.1 "investment_enabled" = some (MAAValue.vBool false) ∧
      lookupKey out.1 "investments_count" = none ∧
      lookupKey out.1 "investment_with_more_score" = none ∧
      lookupKey out.1 "stop_when_investment_full" = none) ∧
    (p.disable_investment = false →
      lookupKey out.1 "investment_enabled" = some (MAAValue.vBool true) ∧
      lookupKey out.1 "investment_with_more_score" =
        some (MAAValue.vBool p.investment_with_more_score) ∧
      lookupKey out.1 "stop_when_investment_full" =
        some (MAAValue.vBool (!p.no_stop_when_investment_full)) ∧
      lookupKey out.1 "investments_count" = p.investments_count.map MAAValue.vInt) := by
  obtain ⟨hc, hth, hw⟩ := into_ok_elim p out h
  have step : ∀ q : String,
      ("refresh_trader_with_dice" : String) ≠ q →
      ("use_foldartal" : String) ≠ q →
      ("first_floor_foldartal" : String) ≠ q →
      ("start_foldartal_list" : String) ≠ q →
      ("check_collapsal_paradigms" : String) ≠ q →
      ("double_check_collapsal_paradigms" : String) ≠ q →
      ("expected_collapsal_paradigms" : String) ≠ q →
      ("start_with_seed" : String) ≠ q →
      ("find_playTime_target" : String) ≠ q →
      ("use_support" : String) ≠ q →
      ("use_nonfriend_support" : String) ≠ q →
      ("start_with_elite_two" : String) ≠ q →
      ("only_start_with_elite_two" : String) ≠ q →
      ("collectible_mode_squad" : String) ≠ q →
      ("collectible_mode_shopping" : String) ≠ q →
      ("collectible_mode_start_list" : String) ≠ q →
      ("monthly_squad_auto_iterate" : String) ≠ q →
      ("monthly_squad_check_comms" : String) ≠ q →
      ("deep_exploration_auto_iterate" : String) ≠ q →
      lookupKey out.1 q =
        lookupKey (withInvestment p (withDifficulty p (baseValue p))) q := by
    intro q a1 a2 a3 a4 a5 a6 a7 a8 a9 b1 b2 b3 b4 b5 b6 b7 b8 b9 b10
    rw [lookup_themeApply_ne p _ out.1 q hth a1 a2 a3 a4 a5 a6 a7 a8 a9]
    exact lookup_pre_to_investment p q b1 b2 b3 b4 b5 b6 b7 b8 b9 b10
  have e1 := step "investment_enabled" (by decide) (by decide) (by decide)
    (by decide) (by decide) (by decide) (by decide) (by decide) (by decide)
    (by decide) (by decide) (by decide) (by decide) (by decide) (by decide)
    (by decide) (by decide) (by decide) (by decide)
  have e2 := step "investments_count" (by decide) (by decide) (by decide)
    (by decide) (by decide) (by decide) (by decide) (by decide) (by decide)
    (by decide) (by decide) (by decide) (by decide) (by decide) (by decide)
    (by decide) (by decide) (by decide) (by decide)
  have e3 := step "investment_with_more_score" (by decide) (by decide) (by decide)
    (by decide) (by decide) (by decide) (by decide) (by decide) (by decide)
    (by decide) (by decide) (by decide) (by decide) (by decide) (by decide)
    (by decide) (by decide) (by decide) (by decide)
  have e4 := step "stop_when_investment_full" (by decide) (by decide) (by decide)
    (by decide) (by decide) (by decide) (by decide) (by decide) (by decide)
    (by decide) (by decide) (by decide) (by decide) (by decide) (by decide)
    (by decide) (by decide) (by decide) (by decide)
  constructor
  · intro hd
    refine ⟨?_, ?_, ?_, ?_⟩ <;>
      simp [e1, e2, e3, e4, withInvestment, hd, lookup_setKey, lookup_insOpt,
        withDifficulty, baseValue, lookupKey] <;>
      split_ifs <;>
      simp [lookup_setKey, lookup_insOpt, lookupKey]
  · intro hd
    refine ⟨?_, ?_, ?_, ?_⟩ <;>
      simp [e1, e2, e3, e4, withInvestment, hd, lookup_setKey, lookup_insOpt] <;>
      cases hic : p.investments_count <;>
      simp [hic, withDifficulty, baseValue, lookup_setKey, lookup_insOpt, lookupKey] <;>
      split_ifs <;>
      simp [lookup_insOpt, baseValue, lookup_setKey, lookupKey]

/-- Witness for C2: the defaulted record has investment enabled and no
count key. -/
theorem investment_fields_witness :
    lookupKey (resolvedAt sampleParams).1 "investment_enabled" =
      some (MAAValue.vBool true) :=
  ((investment_fields sampleParams (resolvedAt sampleParams) (by rfl)).2 rfl).1

/-- C3: for JieGarden with mode 20001, a missing or out-of-range target is
a fatal error, and for every target in 1..=3 resolution succeeds with the
playtime-target key equal to the given value. -/
theorem jiegarden_playtime_target (p : RoguelikeParams)
    (h1 : p.theme = Theme.JieGarden) (h2 : p.mode = 20001) :
    (p.find_playtime_target = none →
      (into_parameters_no_context p).isOk = false) ∧
    (∀ t : Int, p.find_playtime_target = some t →
      (¬(1 ≤ t ∧ t ≤ 3) → (into_parameters_no_context p).isOk = false) ∧
      ((1 ≤ t ∧ t ≤ 3) →
        (into_parameters_no_context p).isOk = true ∧
        ∀ out, into_parameters_no_context p = Except.ok out →
          lookupKey out.1 "find_playTime_target" = some (MAAValue.vInt t))) := by
  have hchk : (modeThemeCheck p.theme p.mode).isOk = true := by
    rw [h1, h2]; rfl
  constructor
  · intro ht
    rw [into_isOk, hchk]
    simp [themeOkB, h1, h2, ht]
  · intro t ht
    constructor
    · intro hr
      rw [into_isOk, hchk]
      simp [themeOkB, h1, h2, ht, hr]
    · intro hr
      refine ⟨by rw [into_isOk, hchk]; simp [themeOkB, h1, h2, ht, hr], ?_⟩
      intro out hout
      obtain ⟨_, hth, _⟩ := into_ok_elim p out hout
      unfold themeApply at hth
      rw [h1] at hth
      simp [h2, ht, hr] at hth
      rw [← hth, lookup_setKey]
      simp

/-- Witness for C3: JieGarden mode 20001 with target 2 succeeds and emits
the target. -/
theorem jiegarden_playtime_target_witness :
    (into_parameters_no_context paramsJie).isOk = true ∧
    lookupKey (resolvedAt paramsJie).1 "find_playTime_target" =
      some (MAAValue.vInt 2) := by
  have h := (jiegarden_playtime_target paramsJie rfl rfl).2 2 rfl
  exact ⟨(h.2 (by decide)).1, (h.2 (by decide)).2 (resolvedAt paramsJie) (by rfl)⟩

/-- C4: in Sarkaz mode 1 the start-with-seed flag makes the seed value
mandatory; a seed without the flag is ignored with a warning and no key,
and flag together with seed stores the seed string under its key. -/
theorem sarkaz_seed_handling (p : RoguelikeParams)
    (h1 : p.theme = Theme.Sarkaz) (h2 : p.mode = 1) :
    (p.start_with_seed = true → p.seed = none →
      (into_parameters_no_context p).isOk = false) ∧
    (p.start_with_seed = false → p.seed.isSome = true →
      (into_parameters_no_context p).isOk = true ∧
      ∀ out, into_parameters_no_context p = Except.ok out →
        lookupKey out.1 "start_with_seed" = none ∧
        "seed is provided but start_with_seed is not enabled, ignoring" ∈ out.2) ∧
    (p.start_with_seed = true → ∀ s : String, p.seed = some s →
      ∀ out, into_parameters_no_context p = Except.ok out →
        lookupKey out.1 "start_with_seed" = some (MAAValue.vStr s)) := by
  have hchk : (modeThemeCheck p.theme p.mode).isOk = true := by
    rw [h1, h2]; rfl
  refine ⟨?_, ?_, ?_⟩
  · intro hs hseed
    rw [into_isOk, hchk]
    simp [themeOkB, h1, h2, hs, hseed]
  · intro hs hseed
    constructor
    · rw [into_isOk, hchk]
      simp [themeOkB, h1, h2, hs]
    · intro out hout
      obtain ⟨_, hth, hw⟩ := into_ok_elim p out hout
      constructor
      · unfold themeApply at hth
        rw [h1] at hth
        simp [h2, hs] at hth
        rw [← hth, pre_no_seed]
      · rw [hw]
        simp [topWarns, hs, hseed]
  · intro hs s hseed out hout
    obtain ⟨_, hth, _⟩ := into_ok_elim p out hout
    unfold themeApply at hth
    rw [h1] at hth
    simp [h2, hs, hseed] at hth
    rw [← hth, lookup_setKey]
    simp

/-- Witness for C4: Sarkaz mode 1 with flag and seed emits the seed. -/
theorem sarkaz_seed_handling_witness :
    lookupKey (resolvedAt paramsSarkazSeed).1 "start_with_seed" =
      some (MAAValue.vStr "123456") :=
  (sarkaz_seed_handling paramsSarkazSeed rfl rfl).2.2 rfl "123456" rfl
    (resolvedAt paramsSarkazSeed) (by rfl)

/-- C7: a difficulty supplied with the Phantom theme never reaches the
output (only a warning), and never affects success; for any other theme
the difficulty key mirrors the input exactly. -/
theorem difficulty_field (p : RoguelikeParams) :
    (p.theme = Theme.Phantom →
      (∀ d : Option Int,
        (into_parameters_no_context { p with difficulty := d }).isOk =
          (into_parameters_no_context p).isOk) ∧
      (∀ out, into_parameters_no_context p = Except.ok out →
        lookupKey out.1 "difficulty" = none ∧
        (p.difficulty.isSome = true →
          "Difficulty is not valid for Phantom theme, ignored" ∈ out.2))) ∧
    (¬p.theme = Theme.Phantom →
      ∀ out, into_parameters_no_context p = Except.ok out →
        lookupKey out.1 "difficulty" = p.difficulty.map MAAValue.vInt) := by
  constructor
  · intro hph
    constructor
    · intro d
      rw [into_isOk, into_isOk]
      rfl
    · intro out hout
      obtain ⟨_, hth, hw⟩ := into_ok_elim p out hout
      constructor
      · rw [lookup_themeApply_ne p _ out.1 _ hth (by decide) (by decide)
            (by decide) (by decide) (by decide) (by decide) (by decide)
            (by decide) (by decide),
          lookup_pre_to_investment p _ (by decide) (by decide) (by decide)
            (by decide) (by decide) (by decide) (by decide) (by decide)
            (by decide) (by decide),
          lookup_withInvestment_ne p _ _ (by decide) (by decide) (by decide)
            (by decide)]
        simp [withDifficulty, hph, baseValue, lookup_setKey, lookup_insOpt,
          lookupKey]
      · intro hd
        rw [hw]
        simp [difficultyWarn, hph, hd]
  · intro hph out hout
    obtain ⟨_, hth, _⟩ := into_ok_elim p out hout
    rw [lookup_themeApply_ne p _ out.1 _ hth (by decide) (by decide)
          (by decide) (by decide) (by decide) (by decide) (by decide)
          (by decide) (by decide),
        lookup_pre_to_investment p _ (by decide) (by decide) (by decide)
          (by decide) (by decide) (by decide) (by decide) (by decide)
          (by decide) (by decide),
        lookup_withInvestment_ne p _ _ (by decide) (by decide) (by decide)
          (by decide)]
    unfold withDifficulty
    rw [if_neg hph, lookup_insOpt]
    cases hv : p.difficulty <;>
      simp [hv, baseValue, lookup_setKey, lookup_insOpt, lookupKey]

/-- Witness for C7: Phantom with difficulty 15 has no difficulty key. -/
theorem difficulty_field_witness :
    lookupKey (resolvedAt paramsPhantomDiff).1 "difficulty" = none :=
  (((difficulty_field paramsPhantomDiff).1 rfl).2 (resolvedAt paramsPhantomDiff)
    (by rfl)).1

/-- C9: with the start-with-seed flag set outside Sarkaz mode 1, a missing
seed is never fatal (success is unchanged by removing the seed), only the
scoping warning is logged, and no seed key is emitted. -/
theorem seed_flag_scope (p : RoguelikeParams) (h1 : p.start_with_seed = true)
    (h2 : ¬p.theme = Theme.Sarkaz ∨ ¬p.mode = 1) :
    (into_parameters_no_context { p with seed := none }).isOk =
      (into_parameters_no_context p).isOk ∧
    ∀ out, into_parameters_no_context p = Except.ok out →
      lookupKey out.1 "start_with_seed" = none ∧
      "start_with_seed is only meaningful for Sarkaz theme with mode 1, ignoring"
        ∈ out.2 := by
  constructor
  · rw [into_isOk, into_isOk]
    show ((modeThemeCheck p.theme p.mode).isOk &&
        themeOkB { p with seed := none }) = _
    rw [themeOkB_seed_free p h2 none]
  · intro out hout
    obtain ⟨_, hth, hw⟩ := into_ok_elim p out hout
    constructor
    · rw [themeApply_seed_scope p _ out.1 hth h2, pre_no_seed]
    · rw [hw]
      simp [topWarns, h1, h2]

/-- Witness for C9: Phantom with the flag set still succeeds without a
seed key. -/
theorem seed_flag_scope_witness :
    lookupKey (resolvedAt paramsSeedIgnored).1 "start_with_seed" = none :=
  ((seed_flag_scope paramsSeedIgnored rfl (Or.inl (by decide))).2
    (resolvedAt paramsSeedIgnored) (by rfl)).1

/-- For the Sami theme, the start-foldartal-list key of the result is the
squad2 list when its flag is set and it is non-empty, otherwise the
general list when non-empty, otherwise whatever the input mapping held. -/
theorem themeApply_sami_foldartal (p : RoguelikeParams) (v w : ConfigMap)
    (h1 : p.theme = Theme.Sami) (hw : themeApply p v = Except.ok w) :
    lookupKey w "start_foldartal_list" =
      if p.sami_new_squad2_starting_foldartal ∧
          p.sami_new_squad2_starting_foldartals ≠ [] then
        some (MAAValue.vArr (p.sami_new_squad2_starting_foldartals.map MAAValue.vStr))
      else if p.start_foldartals ≠ [] then
        some (MAAValue.vArr (p.start_foldartals.map MAAValue.vStr))
      else lookupKey v "start_foldartal_list" := by
  unfold themeApply at hw
  rw [h1] at hw
  simp only [] at hw
  split at hw
  · split at hw
    · exact absurd hw (by simp)
    · cases hw
      split_ifs <;> simp [lookup_setKey]
  · cases hw
    split_ifs <;> simp [lookup_setKey]

/-- C5: for Sami, a set squad2 starting-foldartal flag with a non-empty
list L1 populates the start-foldartal-list key with exactly L1, whatever
the general list holds; otherwise a non-empty general list populates it;
when both sources are empty the key is absent. -/
theorem sami_foldartal_precedence (p : RoguelikeParams)
    (h1 : p.theme = Theme.Sami) (out : ConfigMap × List String)
    (hout : into_parameters_no_context p = Except.ok out) :
    (p.sami_new_squad2_starting_foldartal = true →
      p.sami_new_squad2_starting_foldartals ≠ [] →
      lookupKey out.1 "start_foldartal_list" =
        some (MAAValue.vArr
          (p.sami_new_squad2_starting_foldartals.map MAAValue.vStr))) ∧
    ((p.sami_new_squad2_starting_foldartal = false ∨
        p.sami_new_squad2_starting_foldartals = []) →
      p.start_foldartals ≠ [] →
      lookupKey out.1 "start_foldartal_list" =
        some (MAAValue.vArr (p.start_foldartals.map MAAValue.vStr))) ∧
    ((p.sami_new_squad2_starting_foldartal = false ∨
        p.sami_new_squad2_starting_foldartals = []) →
      p.start_foldartals = [] →
      lookupKey out.1 "start_foldartal_list" = none) := by
  obtain ⟨_, hth, _⟩ := into_ok_elim p out hout
  have hkey := themeApply_sami_foldartal p _ out.1 h1 hth
  rw [pre_no_foldartal] at hkey
  have hno : ∀ (hd : p.sami_new_squad2_starting_foldartal = false ∨
      p.sami_new_squad2_starting_foldartals = []),
      ¬(p.sami_new_squad2_starting_foldartal ∧
        p.sami_new_squad2_starting_foldartals ≠ []) := by
    intro hd
    rcases hd with h | h <;> simp [h]
  refine ⟨?_, ?_, ?_⟩
  · intro hf hl
    rw [hkey, if_pos ⟨hf, hl⟩]
  · intro hd hl
    rw [hkey, if_neg (hno hd), if_pos hl]
  · intro hd hl
    rw [hkey, if_neg (hno hd), if_neg (by simp [hl])]

/-- Witness for C5: with both lists non-empty, the squad2 list wins. -/
theorem sami_foldartal_precedence_witness :
    lookupKey (resolvedAt paramsSamiFoldartal).1 "start_foldartal_list" =
      some (MAAValue.vArr [MAAValue.vStr "A"]) :=
  (sami_foldartal_precedence paramsSamiFoldartal rfl
    (resolvedAt paramsSamiFoldartal) (by rfl)).1 rfl (by decide)

/-- C8: for Sami with mode 5, an empty expected-collapsal-paradigms list
is a fatal error; a non-empty list yields success with both check
booleans true, the paradigm list, and the always-emitted use-foldartal
boolean. -/
theorem sami_paradigms (p : RoguelikeParams)
    (h1 : p.theme = Theme.Sami) (h2 : p.mode = 5) :
    (p.expected_collapsal_paradigms = [] →
      (into_parameters_no_context p).isOk = false) ∧
    (p.expected_collapsal_paradigms ≠ [] →
      (into_parameters_no_context p).isOk = true ∧
      ∀ out, into_parameters_no_context p = Except.ok out →
        lookupKey out.1 "check_collapsal_paradigms" = some (MAAValue.vBool true) ∧
        lookupKey out.1 "double_check_collapsal_paradigms" =
          some (MAAValue.vBool true) ∧
        lookupKey out.1 "expected_collapsal_paradigms" =
          some (MAAValue.vArr
            (p.expected_collapsal_paradigms.map MAAValue.vStr)) ∧
        lookupKey out.1 "use_foldartal" = some (MAAValue.vBool p.use_foldartal)) := by
  have hchk : (modeThemeCheck p.theme p.mode).isOk = true := by
    rw [h1, h2]; rfl
  constructor
  · intro he
    rw [into_isOk, hchk]
    simp [themeOkB, h1, h2, he]
  · intro he
    constructor
    · rw [into_isOk, hchk]
      simp [themeOkB, h1, h2, he]
    · intro out hout
      obtain ⟨_, hth, _⟩ := into_ok_elim p out hout
      unfold themeApply at hth
      rw [h1] at hth
      simp [h2, he] at hth
      rw [← hth]
      refine ⟨?_, ?_, ?_, ?_⟩ <;>
        simp [lookup_setKey] <;> split_ifs <;> simp [lookup_setKey]

/-- Witness for C8: Sami mode 5 with one paradigm succeeds and emits it. -/
theorem sami_paradigms_witness :
    (into_parameters_no_context paramsSami5).isOk = true ∧
    lookupKey (resolvedAt paramsSami5).1 "expected_collapsal_paradigms" =
      some (MAAValue.vArr [MAAValue.vStr "X"]) := by
  have h := (sami_paradigms paramsSami5 rfl rfl).2 (by decide)
  exact ⟨h.1, (h.2 (resolvedAt paramsSami5) (by rfl)).2.2.1⟩

/-- Once a key maps to `true` in the award accumulator it stays `true`:
every insertion of the loop writes the value `true`. -/
theorem awardLoop_preserve (toks : List String) (acc : ConfigMap) (n : Nat)
    (ws : List String) (k : String)
    (h : lookupKey acc k = some (MAAValue.vBool true)) :
    lookupKey (awardLoop toks acc n ws).1 k = some (MAAValue.vBool true) := by
  induction toks generalizing acc n ws with
  | nil => exact h
  | cons a rest ih =>
    simp only [awardLoop]
    cases hf : rewardMap.find? (fun q => q.1 == trimStr a) with
    | some q =>
      refine ih _ _ _ ?_
      rw [lookup_setKey]
      split_ifs with hq
      · rfl
      · exact h
    | none =>
      split_ifs with ht
      · exact ih _ _ _ h
      · exact ih _ _ _ h

/-- Every token of the award string whose trimmed form is found in the
lookup table ends up as a `true` entry under its canonical output key. -/
theorem awardLoop_mem (toks : List String) (acc : ConfigMap) (n : Nat)
    (ws : List String) (a : String) (q : String × String)
    (hmem : a ∈ toks)
    (hf : rewardMap.find? (fun r => r.1 == trimStr a) = some q) :
    lookupKey (awardLoop toks acc n ws).1 q.2 = some (MAAValue.vBool true) := by
  induction toks generalizing acc n ws with
  | nil => cases hmem
  | cons b rest ih =>
    rcases List.mem_cons.mp hmem with hb | hb
    · subst hb
      simp only [awardLoop, hf]
      refine awardLoop_preserve rest _ _ _ q.2 ?_
      rw [lookup_setKey]
      simp
    · simp only [awardLoop]
      cases hf2 : rewardMap.find? (fun r => r.1 == trimStr b)
      · split_ifs <;> exact ih _ _ _ hb
      · exact ih _ _ _ hb

/-- The valid-token count of the award loop never decreases. -/
theorem awardLoop_count_le (toks : List String) (acc : ConfigMap) (n : Nat)
    (ws : List String) : n ≤ (awardLoop toks acc n ws).2.1 := by
  induction toks generalizing acc n ws with
  | nil => exact Nat.le_refl n
  | cons a rest ih =>
    simp only [awardLoop]
    cases hf : rewardMap.find? (fun q => q.1 == trimStr a)
    · split_ifs <;> exact ih _ _ _
    · exact Nat.le_trans (Nat.le_succ n) (ih _ _ _)

/-- A recognized token makes the valid-token count positive. -/
theorem awardLoop_count_pos (toks : List String) (acc : ConfigMap) (n : Nat)
    (ws : List String) (a : String) (q : String × String)
    (hmem : a ∈ toks)
    (hf : rewardMap.find? (fun r => r.1 == trimStr a) = some q) :
    0 < (awardLoop toks acc n ws).2.1 := by
  induction toks generalizing acc n ws with
  | nil => cases hmem
  | cons b rest ih =>
    rcases List.mem_cons.mp hmem with hb | hb
    · subst hb
      simp only [awardLoop, hf]
      exact Nat.lt_of_lt_of_le (Nat.succ_pos n) (awardLoop_count_le rest _ _ _)
    · simp only [awardLoop]
      cases hf2 : rewardMap.find? (fun r => r.1 == trimStr b)
      · split_ifs <;> exact ih _ _ _ hb
      · exact Nat.lt_of_lt_of_le (Nat.succ_pos n) (awardLoop_count_le rest _ _ _)

/-- Reading the mapping below the collectible stage at a key owned by
neither the elite, support, investment nor difficulty block gives the
base mapping value. -/
theorem lookup_stack_inner (p : RoguelikeParams) (q : String)
    (h1 : ("start_with_elite_two" : String) ≠ q)
    (h2 : ("only_start_with_elite_two" : String) ≠ q)
    (h3 : ("use_support" : String) ≠ q)
    (h4 : ("use_nonfriend_support" : String) ≠ q)
    (h5 : ("investment_enabled" : String) ≠ q)
    (h6 : ("investments_count" : String) ≠ q)
    (h7 : ("investment_with_more_score" : String) ≠ q)
    (h8 : ("stop_when_investment_full" : String) ≠ q)
    (h9 : ("difficulty" : String) ≠ q) :
    lookupKey (withElite p (withSupport p (withInvestment p
      (withDifficulty p (baseValue p))))) q = lookupKey (baseValue p) q := by
  rw [lookup_withElite_ne p _ q h1 h2, lookup_withSupport_ne p _ q h3 h4,
    lookup_withInvestment_ne p _ q h5 h6 h7 h8, lookup_withDifficulty_ne p _ q h9]

/-- C6: in mode 4, every comma-separated award token matching a canonical
name yields a `true` entry under its canonical key; if zero tokens
validate, the award sub-mapping key is omitted; the award string never
causes a fatal error; and the string "hot_water,invalid,shield" produces
exactly the hot-water and shield entries. -/
theorem collectible_award_mapping (p : RoguelikeParams) :
    (∀ (s a : String) (q : String × String),
      p.mode = 4 → p.collectible_start_awards = some s →
      a ∈ splitCommas s →
      rewardMap.find? (fun r => r.1 == trimStr a) = some q →
      ∀ out, into_parameters_no_context p = Except.ok out →
        ∃ m, lookupKey out.1 "collectible_mode_start_list" =
            some (MAAValue.vObj m) ∧
          lookupKey m q.2 = some (MAAValue.vBool true)) ∧
    (∀ s : String,
      p.mode = 4 → p.collectible_start_awards = some s →
      (awardLoop (splitCommas s) [] 0 []).2.1 = 0 →
      ∀ out, into_parameters_no_context p = Except.ok out →
        lookupKey out.1 "collectible_mode_start_list" = none) ∧
    (∀ s : Option String,
      (into_parameters_no_context { p with collectible_start_awards := s }).isOk =
        (into_parameters_no_context p).isOk) ∧
    (p.mode = 4 → p.collectible_start_awards = some "hot_water,invalid,shield" →
      ∀ out, into_parameters_no_context p = Except.ok out →
        lookupKey out.1 "collectible_mode_start_list" =
          some (MAAValue.vObj
            [("hot_water", MAAValue.vBool true), ("shield", MAAValue.vBool true)])) := by
  have key : ∀ out, into_parameters_no_context p = Except.ok out →
      lookupKey out.1 "collectible_mode_start_list" =
        lookupKey (withCollectible p (withElite p (withSupport p
          (withInvestment p (withDifficulty p (baseValue p)))))).1
          "collectible_mode_start_list" := by
    intro out hout
    obtain ⟨_, hth, _⟩ := into_ok_elim p out hout
    rw [lookup_themeApply_ne p _ out.1 _ hth (by decide) (by decide) (by decide)
        (by decide) (by decide) (by decide) (by decide) (by decide) (by decide),
      lookup_pre_to_collectible p _ (by decide) (by decide) (by decide)]
  refine ⟨?_, ?_, ?_, ?_⟩
  · intro s a q hm ha hmem hf out hout
    rw [key out hout]
    unfold withCollectible
    rw [if_pos hm, ha]
    simp only []
    rw [if_pos (Nat.lt_of_lt_of_le
      (awardLoop_count_pos (splitCommas s) [] 0 [] a q hmem hf) (Nat.le_refl _))]
    rw [lookup_setKey]
    exact ⟨(awardLoop (splitCommas s) [] 0 []).1, by simp,
      awardLoop_mem (splitCommas s) [] 0 [] a q hmem hf⟩
  · intro s hm ha hz out hout
    rw [key out hout]
    unfold withCollectible
    rw [if_pos hm, ha]
    simp only []
    rw [if_neg (by rw [hz]; exact Nat.lt_irrefl 0), lookup_setKey]
    simp only [lookup_insOpt]
    rw [lookup_stack_inner p _ (by decide) (by decide) (by decide) (by decide)
      (by decide) (by decide) (by decide) (by decide) (by decide)]
    simp [baseValue, lookup_setKey, lookup_insOpt, lookupKey]
  · intro s
    rw [into_isOk, into_isOk]
    rfl
  · intro hm ha out hout
    rw [key out hout]
    unfold withCollectible
    rw [if_pos hm, ha]
    simp only []
    have hr : awardLoop (splitCommas "hot_water,invalid,shield") [] 0 [] =
        ([("hot_water", MAAValue.vBool true), ("shield", MAAValue.vBool true)], 2,
          ["Unknown collectible start award: invalid, ignoring"]) := rfl
    rw [hr]
    simp only []
    rw [if_pos (by exact Nat.zero_lt_two), lookup_setKey]
    simp

/-- Witness for C6: the sample collectible run emits exactly hot-water
and shield. -/
theorem collectible_award_mapping_witness :
    lookupKey (resolvedAt paramsAward).1 "collectible_mode_start_list" =
      some (MAAValue.vObj
        [("hot_water", MAAValue.vBool true), ("shield", MAAValue.vBool true)]) :=
  (collectible_award_mapping paramsAward).2.2.2 rfl rfl (resolvedAt paramsAward)
    (by rfl)

/-- C10: award tokens are trimmed before lookup, empty tokens (from
consecutive or trailing commas) are skipped silently and not counted,
and duplicate recognized tokens collapse to a single map entry. -/
theorem award_token_normalization :
    (∀ (a : String) (rest : List String) (acc : ConfigMap) (n : Nat)
        (ws : List String), trimStr a = "" →
      awardLoop (a :: rest) acc n ws = awardLoop rest acc n ws) ∧
    (∀ (a : String) (rest : List String) (acc : ConfigMap) (n : Nat)
        (ws : List String) (q : String × String),
      rewardMap.find? (fun r => r.1 == trimStr a) = some q →
      awardLoop (a :: rest) acc n ws =
        awardLoop rest (setKey acc q.2 (MAAValue.vBool true)) (n + 1) ws) ∧
    awardLoop (splitCommas " shield ") [] 0 [] =
      ([("shield", MAAValue.vBool true)], 1, []) ∧
    awardLoop (splitCommas "shield,,shield,") [] 0 [] =
      ([("shield", MAAValue.vBool true)], 2, []) := by
  refine ⟨?_, ?_, rfl, rfl⟩
  · intro a rest acc n ws ht
    simp only [awardLoop, ht]
    rfl
  · intro a rest acc n ws q hf
    simp only [awardLoop, hf]

/-- Witness for C10: a pure-whitespace token is a no-op. -/
theorem award_token_normalization_witness :
    awardLoop [" "] [] 0 [] = awardLoop [] [] 0 [] :=
  award_token_normalization.1 " " [] [] 0 [] (by rfl)

end Roguelike
